import Mathlib

/-!
Shallow embedding of the urban-canopy-calculator pipeline
(src/analysis.py, src/main.py, src/visualization_export.py).

Numeric columns are modelled over `Option ℚ`: `none` plays the role of
pandas' NaN / an undefined value, `some q` a finite number.  Machine
floats carry no other behaviour the claims depend on (no claim is about
rounding), so rationals are the faithful carrier for the arithmetic the
source performs.
-/

namespace UrbanCanopy

/-- Embeds `categorize_change` (src/analysis.py lines 186-198).
`none` models a NaN / missing percentage-point change (`pd.isna`). -/
def categorize_change (pct_change : Option ℚ) : String :=
  match pct_change with
  | none => "No Data"
  | some v =>
    if v < -5 then "Major Loss"
    else if v < -2 then "Moderate Loss"
    else if v < 2 then "Stable"
    else if v < 5 then "Moderate Gain"
    else "Major Gain"

/-- The closed label enumeration of the change classifier. -/
def changeLabels : List String :=
  ["No Data", "Major Loss", "Moderate Loss", "Stable", "Moderate Gain", "Major Gain"]

/-- Embeds the absolute-change column assignment
(src/analysis.py lines 174-177): end-year mean minus start-year mean,
NaN if either operand is NaN. -/
def canopy_change_pct (startMean endMean : Option ℚ) : Option ℚ :=
  match endMean, startMean with
  | some e, some s => some (e - s)
  | _, _ => none

/-- Embeds `.replace(0, np.nan)` on the start-year mean column
(src/analysis.py line 182). -/
def replaceZeroWithNaN (x : Option ℚ) : Option ℚ :=
  match x with
  | some v => if v = 0 then none else some v
  | none => none

/-- Embeds the relative-change column assignment
(src/analysis.py lines 180-183): absolute change divided by the
zero-replaced start-year mean, times 100; NaN propagates. -/
def canopy_change_relative (startMean endMean : Option ℚ) : Option ℚ :=
  match canopy_change_pct startMean endMean, replaceZeroWithNaN startMean with
  | some d, some s => some (d / s * 100)
  | _, _ => none

/-- Acres per 30-meter pixel (src/analysis.py line 203). -/
def pixel_to_acres : ℚ := 222 / 1000

/-- Embeds the per-year acreage column assignment
(src/analysis.py lines 204-209): (mean / 100) * pixel count * 0.222;
a NaN operand gives NaN acreage. -/
def canopy_acres (mean pixels : Option ℚ) : Option ℚ :=
  match mean, pixels with
  | some m, some p => some (m / 100 * p * pixel_to_acres)
  | _, _ => none

/-- Embeds the acreage-change column assignment
(src/analysis.py lines 211-214): end-year acres minus start-year acres. -/
def canopy_acres_change (startAcres endAcres : Option ℚ) : Option ℚ :=
  match endAcres, startAcres with
  | some e, some s => some (e - s)
  | _, _ => none

/-! ## Zonal statistics storage (src/analysis.py lines 131-144) -/

/-- One entry of the list returned by `rasterstats.zonal_stats`:
each requested statistic is a Python number or `None`. -/
structure ZonalResult where
  mean : Option ℚ
  min : Option ℚ
  max : Option ℚ
  sum : Option ℚ
  std : Option ℚ
  count : Option ℕ
deriving Repr, DecidableEq

/-- The per-year statistics the loop stores into the GeoDataFrame columns;
`none` in a numeric field models the stored `np.nan`. -/
structure StoredYearStats where
  mean : Option ℚ
  min : Option ℚ
  max : Option ℚ
  std : Option ℚ
  pixels : ℕ
deriving Repr, DecidableEq

/-- Embeds the column assignments of src/analysis.py lines 139-144:
`s[k] if s[k] is not None else np.nan` for mean/min/max/std, and
`s[count] if s[count] is not None else 0` for the pixel count. -/
def storeStats (s : ZonalResult) : StoredYearStats :=
  { mean := match s.mean with | some v => some v | none => none
    min := match s.min with | some v => some v | none => none
    max := match s.max with | some v => some v | none => none
    std := match s.std with | some v => some v | none => none
    pixels := match s.count with | some c => c | none => 0 }

/-- A zonal result for a polygon with zero intersecting valid raster cells
(spec section 4.3): every statistic undefined and the count zero or absent. -/
def ZonalResult.noValidCells (s : ZonalResult) : Prop :=
  s.mean = none ∧ s.min = none ∧ s.max = none ∧ s.std = none ∧
    (s.count = none ∨ s.count = some 0)

/-! ## Geometry sanitation (src/analysis.py lines 71-88 and 112-116) -/

/-- Geometry type tags as reported by `geopandas` `.geometry.type`. -/
inductive GeomType where
  | Polygon
  | MultiPolygon
  | LineString
  | Point
  | GeometryCollection
deriving Repr, DecidableEq

/-- The geometry attributes the sanitation filters inspect.  `area` is the
area after projection to the estimated UTM CRS (src/analysis.py lines
83-85); reprojection to and from UTM is modelled as preserving the other
attributes. -/
structure Geometry where
  isEmpty : Bool
  geomType : GeomType
  isValid : Bool
  area : ℚ
deriving Repr, DecidableEq

/-- A tract row as seen by the geometry filters. -/
structure Tract where
  geoid : String
  geom : Geometry
deriving Repr, DecidableEq

/-- `.type.isin(["Polygon", "MultiPolygon"])`. -/
def isPolygonal (g : GeomType) : Bool :=
  match g with
  | .Polygon => true
  | .MultiPolygon => true
  | _ => false

/-- Embeds the cleaning pass of `get_city_tracts` (src/analysis.py lines
73-85): drop empty geometries, keep only Polygon/MultiPolygon, keep only
valid geometries, then keep only projected area strictly above 100. -/
def cleanTracts (l : List Tract) : List Tract :=
  ((((l.filter (fun t => !t.geom.isEmpty)).filter
      (fun t => isPolygonal t.geom.geomType)).filter
      (fun t => t.geom.isValid)).filter
      (fun t => decide (t.geom.area > 100)))

/-- Embeds the defensive re-filter at the head of
`calculate_tract_canopy_stats` (src/analysis.py lines 113-116) and the
identical one in `calculate_mean_canopy_change` (lines 167-170):
keep Polygon/MultiPolygon, keep valid. -/
def defensiveFilter (l : List Tract) : List Tract :=
  (l.filter (fun t => isPolygonal t.geom.geomType)).filter
    (fun t => t.geom.isValid)

/-! ## Year restriction and pipeline abort (src/main.py lines 29-41) -/

/-- `list(range(start_year, end_year + 1))` (src/main.py line 30). -/
def requestedYears (startYear endYear : ℕ) : List ℕ :=
  List.range' startYear (endYear + 1 - startYear)

/-- `np.arange(2011, 2022)` (src/main.py line 32). -/
def nlcdYears : List ℕ :=
  List.range' 2011 11

/-- `[y for y in years if y in np.arange(2011, 2022)]` (src/main.py line 32). -/
def availableYears (startYear endYear : ℕ) : List ℕ :=
  (requestedYears startYear endYear).filter (fun y => nlcdYears.contains y)

/-- The data-fetching stages of `analyze_city_canopy`, in program order. -/
inductive FetchStage where
  | boundaryAndCanopy
  | tracts
deriving Repr, DecidableEq

/-- Embeds the control flow of `analyze_city_canopy` (src/main.py lines
29-54) down to the year check: compute the available years, raise
`ValueError` when none remain, and only afterwards run the fetching
stages.  The returned list records which fetch stages executed. -/
def analyze_city_canopy (startYear endYear : ℕ) :
    Except String (List ℕ) × List FetchStage :=
  let avail := availableYears startYear endYear
  if avail.isEmpty then
    (.error "No NLCD data available", [])
  else
    (.ok avail, [.boundaryAndCanopy, .tracts])

/-! ## Temporary raster files (src/analysis.py lines 120-146) -/

/-- `temp_file = f"temp_canopy_{year}.tif"` (src/analysis.py line 127). -/
def tempFileName (year : ℕ) : String :=
  "temp_canopy_" ++ Nat.repr year ++ ".tif"

/-- Embeds one iteration of the per-year loop of
`calculate_tract_canopy_stats` (src/analysis.py lines 120-146), tracking
only the set of temporary files that exist.  `zonalOk year = false`
models `zonal_stats` raising for that year: the exception propagates and
the `os.remove` on line 146 is not reached.  On both exits the value
carries the files existing at that point. -/
def processYearFiles (zonalOk : ℕ → Bool) (year : ℕ) (files : List String) :
    Except (List String) (List String) :=
  let files1 := tempFileName year :: files
  if zonalOk year then
    .ok (files1.erase (tempFileName year))
  else
    .error files1

/-- The whole per-year loop: years processed in order, the first failing
year aborting the run. -/
def processAllYears (zonalOk : ℕ → Bool) (years : List ℕ)
    (files : List String) : Except (List String) (List String) :=
  match years with
  | [] => .ok files
  | y :: ys =>
    match processYearFiles zonalOk y files with
    | .ok f => processAllYears zonalOk ys f
    | .error f => .error f

/-- A scenario in which `zonal_stats` raises for every year. -/
def zonalRaises : ℕ → Bool := fun _ => false

/-- A scenario in which `zonal_stats` succeeds for every year. -/
def zonalSucceeds : ℕ → Bool := fun _ => true

/-! ## Dataframe model (rows, columns, column assignment) -/

/-- A cell value: a number, a string, or NaN. -/
inductive Val where
  | num (q : ℚ)
  | str (s : String)
  | nan
deriving Repr, DecidableEq

/-- Wraps an optional rational as a stored cell, `none` becoming NaN. -/
def optValNum (x : Option ℚ) : Val :=
  match x with
  | some q => .num q
  | none => .nan

/-- A GeoDataFrame row: its geometry plus named attribute columns. -/
structure Row where
  geometry : Geometry
  cols : List (String × Val)
deriving Repr, DecidableEq

/-- Column lookup in a row. -/
def Row.getCol (r : Row) (c : String) : Option Val :=
  (r.cols.find? (fun p => p.1 == c)).map Prod.snd

/-- Numeric column lookup: NaN and non-numeric cells read as undefined. -/
def Row.getNum (r : Row) (c : String) : Option ℚ :=
  match r.getCol c with
  | some (.num q) => some q
  | _ => none

/-- Column assignment in a row: overwrite in place if present, else append. -/
def Row.setCol (r : Row) (c : String) (v : Val) : Row :=
  if (r.cols.find? (fun p => p.1 == c)).isSome then
    { r with cols := r.cols.map (fun p => if p.1 == c then (c, v) else p) }
  else
    { r with cols := r.cols ++ [(c, v)] }

/-- A GeoDataFrame: a list of rows. -/
abbrev Table := List Row

/-- Vectorized column assignment `df[c] = f(df)` applied row-wise. -/
def Table.setColumn (t : Table) (c : String) (f : Row → Val) : Table :=
  t.map (fun r => r.setCol c (f r))

/-- Row-level counterpart of `defensiveFilter` on a dataframe
(src/analysis.py lines 113-116 and 167-170). -/
def defensiveFilterTable (t : Table) : Table :=
  (t.filter (fun r => isPolygonal r.geometry.geomType)).filter
    (fun r => r.geometry.isValid)

/-- Per-year statistic column names used by `calculate_tract_canopy_stats`. -/
def meanCol (year : ℕ) : String := "canopy_mean_" ++ Nat.repr year

/-- `canopy_min_{year}` column name. -/
def minCol (year : ℕ) : String := "canopy_min_" ++ Nat.repr year

/-- `canopy_max_{year}` column name. -/
def maxCol (year : ℕ) : String := "canopy_max_" ++ Nat.repr year

/-- `canopy_std_{year}` column name. -/
def stdCol (year : ℕ) : String := "canopy_std_" ++ Nat.repr year

/-- `canopy_pixels_{year}` column name. -/
def pixelsCol (year : ℕ) : String := "canopy_pixels_" ++ Nat.repr year

/-- `canopy_acres_{year}` column name. -/
def acresCol (year : ℕ) : String := "canopy_acres_" ++ Nat.repr year

/-- Embeds one iteration's column additions in `calculate_tract_canopy_stats`
(src/analysis.py lines 131-144): zonal statistics of the year's raster per
row geometry, stored through `storeStats`. -/
def addYearStats (zonal : ℕ → Geometry → ZonalResult) (year : ℕ)
    (t : Table) : Table :=
  let t1 := t.setColumn (meanCol year)
    (fun r => optValNum (storeStats (zonal year r.geometry)).mean)
  let t2 := t1.setColumn (minCol year)
    (fun r => optValNum (storeStats (zonal year r.geometry)).min)
  let t3 := t2.setColumn (maxCol year)
    (fun r => optValNum (storeStats (zonal year r.geometry)).max)
  let t4 := t3.setColumn (stdCol year)
    (fun r => optValNum (storeStats (zonal year r.geometry)).std)
  t4.setColumn (pixelsCol year)
    (fun r => .num ((storeStats (zonal year r.geometry)).pixels : ℚ))

/-! ## Heap of dataframes (pandas objects accessed through references) -/

/-- A heap of dataframes: `next` is the next fresh reference, `mem` maps
references to the dataframes they denote. -/
structure Store where
  next : ℕ
  mem : ℕ → Option Table

/-- Allocate a fresh dataframe (what `.copy()` and a filtering expression
do) and return its reference. -/
def Store.alloc (st : Store) (t : Table) : Store × ℕ :=
  (⟨st.next + 1, fun i => if i = st.next then some t else st.mem i⟩, st.next)

/-- Overwrite the dataframe a reference denotes. -/
def Store.write (st : Store) (r : ℕ) (t : Table) : Store :=
  ⟨st.next, fun i => if i = r then some t else st.mem i⟩

/-- Read a reference. -/
def Store.read (st : Store) (r : ℕ) : Option Table :=
  st.mem r

/-- An in-place mutation (pandas column assignment) performed through a
reference: rewrite the referenced dataframe by `f`. -/
def Store.updateRef (st : Store) (r : ℕ) (f : Table → Table) : Store :=
  match st.read r with
  | some cur => st.write r (f cur)
  | none => st

/-- Embeds `calculate_tract_canopy_stats` (src/analysis.py lines 96-148)
against the heap: read the caller's dataframe, copy it (line 110), rebind
to the defensively filtered copy (lines 113-116, a fresh frame), then add
the five statistic columns for each year in order (lines 120-146) by
in-place assignment.  Returns the reference holding the result. -/
def calculate_tract_canopy_stats (zonal : ℕ → Geometry → ZonalResult)
    (years : List ℕ) (st : Store) (r : ℕ) : Store × Option ℕ :=
  match st.read r with
  | none => (st, none)
  | some t0 =>
    let (st1, _rCopy) := st.alloc t0
    let (st2, rf) := st1.alloc (defensiveFilterTable t0)
    let st3 := years.foldl
      (fun s y => s.updateRef rf (addYearStats zonal y)) st2
    (st3, some rf)

/-- Embeds `calculate_mean_canopy_change` (src/analysis.py lines 152-216)
against the heap: copy the caller's dataframe (line 164), rebind to the
defensively filtered copy (lines 167-170), then assign the change columns
in program order: absolute change (lines 174-177), relative change
(lines 180-183), category (line 200), per-year acres (lines 204-209) and
acreage change (lines 211-214). -/
def calculate_mean_canopy_change (startYear endYear : ℕ)
    (st : Store) (r : ℕ) : Store × Option ℕ :=
  match st.read r with
  | none => (st, none)
  | some t0 =>
    let (st1, _rCopy) := st.alloc t0
    let (st2, rf) := st1.alloc (defensiveFilterTable t0)
    let st3 := st2.updateRef rf (fun t => t.setColumn "canopy_change_pct"
      (fun r => optValNum (canopy_change_pct
        (r.getNum (meanCol startYear)) (r.getNum (meanCol endYear)))))
    let st4 := st3.updateRef rf (fun t => t.setColumn "canopy_change_relative"
      (fun r => optValNum (
        match r.getNum "canopy_change_pct",
              replaceZeroWithNaN (r.getNum (meanCol startYear)) with
        | some d, some s => some (d / s * 100)
        | _, _ => none)))
    let st5 := st4.updateRef rf (fun t => t.setColumn "change_category"
      (fun r => .str (categorize_change (r.getNum "canopy_change_pct"))))
    let st6 := [startYear, endYear].foldl (fun s y =>
      s.updateRef rf (fun t => t.setColumn (acresCol y)
        (fun r => optValNum (canopy_acres
          (r.getNum (meanCol y)) (r.getNum (pixelsCol y)))))) st5
    let st7 := st6.updateRef rf (fun t => t.setColumn "canopy_acres_change"
      (fun r => optValNum (canopy_acres_change
        (r.getNum (acresCol startYear)) (r.getNum (acresCol endYear)))))
    (st7, some rf)

/-! ## Attribute shapefile export (src/visualization_export.py lines 255-267) -/

/-- Embeds the construction of one row of `shp_gdf` in `export_shapefiles`:
keep GEOID, NAMELSAD and the geometry, then add the five analysis fields
under fixed 10-character-safe names, the canopy means taken from the
actual start-year and end-year columns. -/
def exportShapefileRow (startYear endYear : ℕ) (r : Row) : Row :=
  { geometry := r.geometry
    cols := [("GEOID", (r.getCol "GEOID").getD .nan),
             ("NAMELSAD", (r.getCol "NAMELSAD").getD .nan),
             ("cnpy_2011", (r.getCol (meanCol startYear)).getD .nan),
             ("cnpy_2021", (r.getCol (meanCol endYear)).getD .nan),
             ("chng_pct", (r.getCol "canopy_change_pct").getD .nan),
             ("category", (r.getCol "change_category").getD .nan),
             ("acres_chg", (r.getCol "canopy_acres_change").getD .nan)] }

/-- Embeds the `shp_gdf` built by `export_shapefiles`
(src/visualization_export.py lines 257-263). -/
def exportShapefileTable (startYear endYear : ℕ) (t : Table) : Table :=
  t.map (exportShapefileRow startYear endYear)

/-- The attribute field names of the exported shapefile, in order. -/
def exportFieldNames : List String :=
  ["GEOID", "NAMELSAD", "cnpy_2011", "cnpy_2021",
   "chng_pct", "category", "acres_chg"]

/-! ## Concrete witness data -/

/-- A concrete valid polygon geometry. -/
def demoGeometry : Geometry :=
  { isEmpty := false, geomType := .Polygon, isValid := true, area := 5000 }

/-- A concrete tract row. -/
def demoRow : Row :=
  { geometry := demoGeometry
    cols := [("GEOID", .str "41005020102"),
             ("NAMELSAD", .str "Census Tract 201.02")] }

/-- A one-row dataframe. -/
def demoTable : Table := [demoRow]

/-- A heap holding the demo dataframe at reference 0. -/
def demoStore : Store :=
  { next := 1, mem := fun i => if i = 0 then some demoTable else none }

/-- A zonal-statistics oracle returning fixed statistics. -/
def demoZonal : ℕ → Geometry → ZonalResult :=
  fun _ _ => ⟨some 30, some 0, some 80, some 3000, some 12, some 100⟩

/-! ## Theorems -/

/-- C1: `categorize_change` is total: the undefined value maps to
"No Data", and every rational percentage-point change lands in exactly
one of the five numeric buckets, which partition the line with half-open
boundaries at -5, -2, 2, 5 — each label is returned precisely on its
bucket. -/
theorem categorize_change_total_partition :
    categorize_change none = "No Data" ∧
    ∀ v : ℚ,
      categorize_change (some v) ∈ changeLabels ∧
      (categorize_change (some v) = "Major Loss" ↔ v < -5) ∧
      (categorize_change (some v) = "Moderate Loss" ↔ -5 ≤ v ∧ v < -2) ∧
      (categorize_change (some v) = "Stable" ↔ -2 ≤ v ∧ v < 2) ∧
      (categorize_change (some v) = "Moderate Gain" ↔ 2 ≤ v ∧ v < 5) ∧
      (categorize_change (some v) = "Major Gain" ↔ 5 ≤ v) := by
  refine ⟨rfl, fun v => ?_⟩
  simp only [categorize_change]
  split_ifs with h1 h2 h3 h4 <;>
    refine ⟨by decide, ?_, ?_, ?_, ?_, ?_⟩ <;>
    simp <;>
    first
      | linarith
      | (constructor <;> linarith)
      | (intros; linarith)

/-- C2 counterexample: the claim says exactly 2 falls into "Stable", but
`categorize_change` sends exactly 2 to "Moderate Gain". -/
theorem categorize_change_at_two_counterexample :
    categorize_change (some 2) = "Moderate Gain" ∧
      ¬ categorize_change (some 2) = "Stable" := by
  have h : categorize_change (some 2) = "Moderate Gain" := by
    norm_num [categorize_change]
  refine ⟨h, ?_⟩
  rw [h]
  decide

/-- C2 amended: at the bucket boundaries the classifier maps exactly -5
to "Moderate Loss", exactly -2 to "Stable", and exactly 2 to
"Moderate Gain" (each bucket is half-open, containing its lower
endpoint). -/
theorem categorize_change_boundaries :
    categorize_change (some (-5)) = "Moderate Loss" ∧
    categorize_change (some (-2)) = "Stable" ∧
    categorize_change (some 2) = "Moderate Gain" := by
  refine ⟨?_, ?_, ?_⟩ <;> norm_num [categorize_change]

/-- C3: relative change is (end mean - start mean) / start mean * 100;
a start mean of exactly zero yields the undefined value, and the result
is always either undefined or a finite rational — never a division
error, never infinite. -/
theorem canopy_change_relative_spec :
    (∀ e : Option ℚ, canopy_change_relative (some 0) e = none) ∧
    (∀ s e : ℚ, s ≠ 0 →
      canopy_change_relative (some s) (some e) = some ((e - s) / s * 100)) ∧
    (∀ s e : Option ℚ, canopy_change_relative s e = none ∨
      ∃ q : ℚ, canopy_change_relative s e = some q) := by
  refine ⟨?_, ?_, ?_⟩
  · intro e
    cases e <;> simp [canopy_change_relative, canopy_change_pct, replaceZeroWithNaN]
  · intro s e hs
    simp [canopy_change_relative, canopy_change_pct, replaceZeroWithNaN, hs]
  · intro s e
    cases h : canopy_change_relative s e with
    | none => exact Or.inl rfl
    | some q => exact Or.inr ⟨q, rfl⟩

/-- C3 witness: relative change at start mean 0 is undefined, and at
start mean 10, end mean 5 it is -50. -/
theorem canopy_change_relative_spec_witness :
    canopy_change_relative (some 0) (some 7) = none ∧
    ((10 : ℚ) ≠ 0 ∧
      canopy_change_relative (some 10) (some 5) = some ((5 - 10) / 10 * 100)) :=
  ⟨canopy_change_relative_spec.1 (some 7),
   by norm_num,
   canopy_change_relative_spec.2.1 10 5 (by norm_num)⟩

/-- C5: per-year acreage is (mean / 100) * pixel count * 0.222, so
mean = 50 with count = 100 gives exactly 11.1 acres, and acreage change
is end-year acres minus start-year acres. -/
theorem canopy_acres_formula :
    canopy_acres (some 50) (some 100) = some (111 / 10) ∧
    (∀ m p : ℚ, canopy_acres (some m) (some p) =
      some (m / 100 * p * (222 / 1000))) ∧
    (∀ sa ea : ℚ, canopy_acres_change (some sa) (some ea) = some (ea - sa)) := by
  refine ⟨?_, fun m p => rfl, fun sa ea => rfl⟩
  norm_num [canopy_acres, pixel_to_acres]

/-- C6: when zonal statistics report no intersecting valid cells, the
stored per-year statistics are NaN (undefined) for mean, min, max and
std, and exactly zero for the pixel count. -/
theorem storeStats_of_noValidCells (s : ZonalResult)
    (h : s.noValidCells) :
    (storeStats s).mean = none ∧ (storeStats s).min = none ∧
    (storeStats s).max = none ∧ (storeStats s).std = none ∧
    (storeStats s).pixels = 0 := by
  obtain ⟨hm, hmin, hmax, hstd, hc⟩ := h
  have hp : (storeStats s).pixels = 0 := by
    rcases hc with hc | hc <;> simp [storeStats, hc]
  exact ⟨by simp [storeStats, hm], by simp [storeStats, hmin],
    by simp [storeStats, hmax], by simp [storeStats, hstd], hp⟩

/-- C6 witness: a concrete empty zonal result stores NaN statistics and
a zero pixel count. -/
theorem storeStats_of_noValidCells_witness :
    (⟨none, none, none, none, none, some 0⟩ : ZonalResult).noValidCells ∧
    ((storeStats ⟨none, none, none, none, none, some 0⟩).mean = none ∧
      (storeStats ⟨none, none, none, none, none, some 0⟩).min = none ∧
      (storeStats ⟨none, none, none, none, none, some 0⟩).max = none ∧
      (storeStats ⟨none, none, none, none, none, some 0⟩).std = none ∧
      (storeStats ⟨none, none, none, none, none, some 0⟩).pixels = 0) :=
  have h : (⟨none, none, none, none, none, some 0⟩ : ZonalResult).noValidCells :=
    ⟨rfl, rfl, rfl, rfl, Or.inr rfl⟩
  ⟨h, storeStats_of_noValidCells _ h⟩

/-- C4 counterexample: when the aggregation step for 2011 raises, the run
aborts with the temporary raster file still existing — the cleanup on
line 146 is not reached, so removal is not guaranteed on every exit
path. -/
theorem temp_file_cleanup_counterexample :
    processAllYears zonalRaises [2011] [] =
      .error ["temp_canopy_2011.tif"] ∧
    "temp_canopy_2011.tif" ∈ ["temp_canopy_2011.tif"] := by
  constructor
  · rfl
  · simp

/-- C4 amended: the per-year temp file is created before aggregation and
removed after a successful aggregation (net file set unchanged, and a
run whose every year succeeds ends with the starting file set); but when
the aggregation step raises, the removal is skipped and the exception
propagates with the temp file left behind. -/
theorem temp_file_cleanup (zonalOk : ℕ → Bool) (year : ℕ)
    (files : List String) (ys : List ℕ) :
    (zonalOk year = true →
      processYearFiles zonalOk year files = .ok files) ∧
    (zonalOk year = false →
      processYearFiles zonalOk year files =
        .error (tempFileName year :: files) ∧
      tempFileName year ∈ tempFileName year :: files) ∧
    ((∀ y ∈ ys, zonalOk y = true) →
      processAllYears zonalOk ys files = .ok files) := by
  refine ⟨?_, ?_, ?_⟩
  · intro h
    simp [processYearFiles, h]
  · intro h
    exact ⟨by simp [processYearFiles, h], by simp⟩
  · induction ys generalizing files with
    | nil => intro _; rfl
    | cons y ys ih =>
      intro h
      have hy : zonalOk y = true := h y (by simp)
      simp only [processAllYears, processYearFiles, hy, if_pos,
        List.erase_cons_head]
      exact ih files (fun z hz => h z (by simp [hz]))

/-- C4 amended witness: with every aggregation succeeding, processing
2011 leaves no file behind; with aggregation raising, the file leaks. -/
theorem temp_file_cleanup_witness :
    (zonalSucceeds 2011 = true ∧
      processYearFiles zonalSucceeds 2011 [] = .ok []) ∧
    (zonalRaises 2011 = false ∧
      processYearFiles zonalRaises 2011 [] =
        .error (tempFileName 2011 :: []) ∧
      tempFileName 2011 ∈ tempFileName 2011 :: ([] : List String)) ∧
    ((∀ y ∈ [2011], zonalSucceeds y = true) ∧
      processAllYears zonalSucceeds [2011] [] = .ok []) :=
  ⟨⟨rfl, (temp_file_cleanup zonalSucceeds 2011 [] [2011]).1 rfl⟩,
   ⟨rfl, (temp_file_cleanup zonalRaises 2011 [] [2011]).2.1 rfl⟩,
   ⟨fun _ _ => rfl,
    (temp_file_cleanup zonalSucceeds 2011 [] [2011]).2.2 (fun _ _ => rfl)⟩⟩

/-- Filtering twice by the same predicate equals filtering once. -/
theorem filter_self_idem {α : Type} (p : α → Bool) (l : List α) :
    (l.filter p).filter p = l.filter p :=
  List.filter_eq_self.mpr (fun _ ha => (List.mem_filter.mp ha).2)

/-- Every member of `cleanTracts l` passes all four cleaning predicates. -/
theorem mem_cleanTracts {l : List Tract} {t : Tract}
    (h : t ∈ cleanTracts l) :
    (!t.geom.isEmpty) = true ∧ isPolygonal t.geom.geomType = true ∧
    t.geom.isValid = true ∧ decide (t.geom.area > 100) = true := by
  simp only [cleanTracts, List.mem_filter] at h
  exact ⟨h.1.1.1.2, h.1.1.2, h.1.2, h.2⟩

/-- C7: geometry sanitation is idempotent — re-running the
`get_city_tracts` cleaning pass on its own output is a no-op, and the
defensive re-filter before statistics/classification removes nothing
from already-clean data. -/
theorem geometry_sanitation_idempotent (l : List Tract) :
    cleanTracts (cleanTracts l) = cleanTracts l ∧
    defensiveFilter (cleanTracts l) = cleanTracts l := by
  constructor
  · show cleanTracts (cleanTracts l) = cleanTracts l
    have h1 : (cleanTracts l).filter (fun t => !t.geom.isEmpty) =
        cleanTracts l :=
      List.filter_eq_self.mpr (fun a ha => (mem_cleanTracts ha).1)
    have h2 : (cleanTracts l).filter
        (fun t => isPolygonal t.geom.geomType) = cleanTracts l :=
      List.filter_eq_self.mpr (fun a ha => (mem_cleanTracts ha).2.1)
    have h3 : (cleanTracts l).filter (fun t => t.geom.isValid) =
        cleanTracts l :=
      List.filter_eq_self.mpr (fun a ha => (mem_cleanTracts ha).2.2.1)
    have h4 : (cleanTracts l).filter
        (fun t => decide (t.geom.area > 100)) = cleanTracts l :=
      List.filter_eq_self.mpr (fun a ha => (mem_cleanTracts ha).2.2.2)
    calc cleanTracts (cleanTracts l)
        = ((((cleanTracts l).filter (fun t => !t.geom.isEmpty)).filter
            (fun t => isPolygonal t.geom.geomType)).filter
            (fun t => t.geom.isValid)).filter
            (fun t => decide (t.geom.area > 100)) := rfl
      _ = cleanTracts l := by rw [h1, h2, h3, h4]
  · have h2 : (cleanTracts l).filter
        (fun t => isPolygonal t.geom.geomType) = cleanTracts l :=
      List.filter_eq_self.mpr (fun a ha => (mem_cleanTracts ha).2.1)
    have h3 : (cleanTracts l).filter (fun t => t.geom.isValid) =
        cleanTracts l :=
      List.filter_eq_self.mpr (fun a ha => (mem_cleanTracts ha).2.2.1)
    calc defensiveFilter (cleanTracts l)
        = ((cleanTracts l).filter
            (fun t => isPolygonal t.geom.geomType)).filter
            (fun t => t.geom.isValid) := rfl
      _ = cleanTracts l := by rw [h2, h3]

/-- C8: the analyzed years are exactly the requested range intersected
with the supported 2011-2021 NLCD range, and when that intersection is
empty the pipeline fails with the ValueError before any fetch stage
runs — no partial result. -/
theorem year_restriction_spec :
    (∀ s e y : ℕ, y ∈ availableYears s e ↔
      (s ≤ y ∧ y ≤ e ∧ 2011 ≤ y ∧ y ≤ 2021)) ∧
    (∀ s e : ℕ, availableYears s e = [] →
      analyze_city_canopy s e = (.error "No NLCD data available", [])) := by
  constructor
  · intro s e y
    simp only [availableYears, requestedYears, nlcdYears, List.mem_filter,
      List.contains, List.elem_iff, List.mem_range'_1]
    omega
  · intro s e h
    simp [analyze_city_canopy, h]

/-- C8 witness: a 2025-2026 request has no supported year, and the
pipeline aborts with the error and an empty fetch trace; and 2021 is
among the years analyzed for a 2016-2021 request. -/
theorem year_restriction_spec_witness :
    (2021 ∈ availableYears 2016 2021 ↔
      (2016 ≤ 2021 ∧ 2021 ≤ 2021 ∧ 2011 ≤ 2021 ∧ 2021 ≤ 2021)) ∧
    (availableYears 2025 2026 = [] ∧
      analyze_city_canopy 2025 2026 =
        (.error "No NLCD data available", [])) :=
  ⟨year_restriction_spec.1 2016 2021 2021,
   rfl,
   year_restriction_spec.2 2025 2026 rfl⟩

/-- Writing one reference leaves every other reference unchanged. -/
theorem Store.write_mem_ne (st : Store) (r r' : ℕ) (t : Table)
    (h : r' ≠ r) : (st.write r t).mem r' = st.mem r' := by
  simp [Store.write, h]

/-- An in-place mutation through one reference leaves every other
reference unchanged. -/
theorem Store.updateRef_mem_ne (st : Store) (r r' : ℕ)
    (f : Table → Table) (h : r' ≠ r) :
    (st.updateRef r f).mem r' = st.mem r' := by
  unfold Store.updateRef
  cases st.read r with
  | none => rfl
  | some cur => exact st.write_mem_ne r r' (f cur) h

/-- A fold of in-place mutations through one reference leaves every
other reference unchanged. -/
theorem foldl_updateRef_mem_ne (rf r' : ℕ) (h : r' ≠ rf)
    (g : ℕ → Table → Table) (ys : List ℕ) (s : Store) :
    (ys.foldl (fun s y => s.updateRef rf (g y)) s).mem r' = s.mem r' := by
  induction ys generalizing s with
  | nil => rfl
  | cons y ys ih =>
    simp only [List.foldl_cons]
    rw [ih, Store.updateRef_mem_ne _ _ _ _ h]

/-- C9: `calculate_tract_canopy_stats` and `calculate_mean_canopy_change`
operate on a copy of the caller's dataframe: every reference the caller
could hold (any reference allocated before the call) denotes the same
dataframe after the call, so the input table is never mutated. -/
theorem input_gdf_not_mutated (zonal : ℕ → Geometry → ZonalResult)
    (years : List ℕ) (startYear endYear : ℕ) (st : Store) (r r' : ℕ)
    (h : r' < st.next) :
    ((calculate_tract_canopy_stats zonal years st r).1).mem r' =
      st.mem r' ∧
    ((calculate_mean_canopy_change startYear endYear st r).1).mem r' =
      st.mem r' := by
  have h1 : r' ≠ st.next := by omega
  have h2 : r' ≠ st.next + 1 := by omega
  constructor
  · unfold calculate_tract_canopy_stats
    cases hr : st.read r with
    | none => rfl
    | some t0 =>
      simp only [Store.alloc]
      rw [foldl_updateRef_mem_ne _ _ h2]
      simp [h1, h2]
  · unfold calculate_mean_canopy_change
    cases hr : st.read r with
    | none => rfl
    | some t0 =>
      simp only [Store.alloc, List.foldl_cons, List.foldl_nil]
      rw [Store.updateRef_mem_ne _ _ _ _ h2,
        Store.updateRef_mem_ne _ _ _ _ h2,
        Store.updateRef_mem_ne _ _ _ _ h2,
        Store.updateRef_mem_ne _ _ _ _ h2,
        Store.updateRef_mem_ne _ _ _ _ h2,
        Store.updateRef_mem_ne _ _ _ _ h2]
      simp [h1, h2]

/-- C9 witness: on a concrete one-row heap, reference 0 denotes the same
dataframe after both calls. -/
theorem input_gdf_not_mutated_witness :
    0 < demoStore.next ∧
    (((calculate_tract_canopy_stats demoZonal [2011, 2021]
        demoStore 0).1).mem 0 = demoStore.mem 0 ∧
     ((calculate_mean_canopy_change 2011 2021
        demoStore 0).1).mem 0 = demoStore.mem 0) :=
  ⟨by norm_num [demoStore],
   input_gdf_not_mutated demoZonal [2011, 2021] 2011 2021 demoStore 0 0
     (by norm_num [demoStore])⟩

/-- C10: the attribute shapefile export always writes its fields under
the fixed names GEOID, NAMELSAD, cnpy_2011, cnpy_2021, chng_pct,
category, acres_chg — independent of the analyzed years — while the two
canopy-mean fields take their values from the actual start-year and
end-year mean columns. -/
theorem export_shapefile_fields (startYear endYear : ℕ) (t : Table) :
    (∀ r ∈ exportShapefileTable startYear endYear t,
      r.cols.map Prod.fst = exportFieldNames) ∧
    (∀ r ∈ t,
      (exportShapefileRow startYear endYear r).getCol "cnpy_2011" =
        some ((r.getCol (meanCol startYear)).getD .nan) ∧
      (exportShapefileRow startYear endYear r).getCol "cnpy_2021" =
        some ((r.getCol (meanCol endYear)).getD .nan)) := by
  constructor
  · intro r hr
    simp only [exportShapefileTable, List.mem_map] at hr
    obtain ⟨r0, _, rfl⟩ := hr
    rfl
  · intro r _
    exact ⟨rfl, rfl⟩

/-- C10 witness: a 2016-2019 run still labels the two canopy-mean fields
cnpy_2011 and cnpy_2021, with values read from the 2016 and 2019 mean
columns. -/
theorem export_shapefile_fields_witness :
    (exportShapefileRow 2016 2019 demoRow ∈
        exportShapefileTable 2016 2019 demoTable ∧
      (exportShapefileRow 2016 2019 demoRow).cols.map Prod.fst =
        exportFieldNames) ∧
    (demoRow ∈ demoTable ∧
      (exportShapefileRow 2016 2019 demoRow).getCol "cnpy_2011" =
        some ((demoRow.getCol (meanCol 2016)).getD .nan) ∧
      (exportShapefileRow 2016 2019 demoRow).getCol "cnpy_2021" =
        some ((demoRow.getCol (meanCol 2019)).getD .nan)) :=
  ⟨⟨by simp [exportShapefileTable, demoTable],
    (export_shapefile_fields 2016 2019 demoTable).1 _
      (by simp [exportShapefileTable, demoTable])⟩,
   ⟨by simp [demoTable],
    (export_shapefile_fields 2016 2019 demoTable).2 demoRow
      (by simp [demoTable])⟩⟩

end UrbanCanopy
